import Mathlib

/-!
Shallow embedding of the `PrecisionMedTwin` Solidity contract
(src/contracts/PrecisionMedTwin.sol) and of the twin-lifecycle operations of
the web frontend (src/frontend/web/src/App.tsx), together with theorems
settling the specification claims about them.

Modelling conventions:
* `euint32` ciphertext handles are modelled by the `Nat` plaintext they
  encrypt; `FHE.add` / `FHE.mul` are homomorphic, so they become addition and
  multiplication modulo `2 ^ 32`, and `FHE.asEuint32 0` is `0`.
* Solidity `mapping`s are total functions `Nat → α` whose value at an
  unwritten key is the zero-initialised default, exactly as in the EVM.
* `require(cond, msg)` and array-index panics revert the whole call, so every
  state-mutating entry point returns `Except String _`; an `Except.error`
  outcome is a revert and produces no successor state (EVM atomicity).
* `FHE.requestDecryption` returns a request id chosen by the external
  decryption service; the id is therefore a parameter of
  `requestResultDecryption`, and the array of ciphertext handles passed to
  the service is returned alongside the new state.
* `FHE.checkSignatures` is an external proof check; its verdict is the
  boolean parameter `proofOk` of the callback, `false` meaning the check
  reverts.
* The callback's `abi.decode(cleartexts, (uint32[]))` is modelled by passing
  the decoded `List Nat` directly; the claims under study quantify over
  cleartexts that decode to an array of unsigned 32-bit values.
-/

/-- The modulus of `uint32` / `euint32` arithmetic. -/
def M : Nat := 2 ^ 32

/-- Homomorphic addition on `euint32` handles (`FHE.add`). -/
def fheAdd (a b : Nat) : Nat := (a + b) % M

/-- Homomorphic multiplication on `euint32` handles (`FHE.mul`). -/
def fheMul (a b : Nat) : Nat := (a * b) % M

/-- Struct `EncryptedHealthData` of the contract. -/
structure EncryptedHealthData where
  patientId : Nat
  genomicData : List Nat
  cellularData : List Nat
  organData : List Nat
  biomarkers : List Nat
  timestamp : Nat
deriving Repr, DecidableEq

/-- Struct `SimulationResult` of the contract. -/
structure SimulationResult where
  diseaseRiskScore : Nat
  drugResponse : List Nat
  isComplete : Bool
deriving Repr, DecidableEq

/-- Struct `DecryptedResult` of the contract. -/
structure DecryptedResult where
  diseaseRiskScore : Nat
  drugResponse : List Nat
  isRevealed : Bool
deriving Repr, DecidableEq

/-- Zero-initialised `EncryptedHealthData`, the default of the Solidity
mapping at an unwritten key. -/
def emptyHealthData : EncryptedHealthData :=
  { patientId := 0, genomicData := [], cellularData := [], organData := [],
    biomarkers := [], timestamp := 0 }

/-- Zero-initialised `SimulationResult` mapping default. -/
def emptySimulationResult : SimulationResult :=
  { diseaseRiskScore := 0, drugResponse := [], isComplete := false }

/-- Zero-initialised `DecryptedResult` mapping default. -/
def emptyDecryptedResult : DecryptedResult :=
  { diseaseRiskScore := 0, drugResponse := [], isRevealed := false }

/-- The storage of the `PrecisionMedTwin` contract. -/
structure ContractState where
  patientData : Nat → EncryptedHealthData
  simulationResults : Nat → SimulationResult
  decryptedResults : Nat → DecryptedResult
  genomicModelParams : List Nat
  cellularModelParams : List Nat
  organModelParams : List Nat
  requestToPatientId : Nat → Nat

/-- Point update of a Solidity mapping. -/
def mapUpdate {α : Type} (m : Nat → α) (k : Nat) (v : α) : Nat → α :=
  fun j => if j = k then v else m j

/-- Contract storage right after deployment: every mapping at its default,
every parameter array empty. -/
def initState : ContractState :=
  { patientData := fun _ => emptyHealthData,
    simulationResults := fun _ => emptySimulationResult,
    decryptedResults := fun _ => emptyDecryptedResult,
    genomicModelParams := [],
    cellularModelParams := [],
    organModelParams := [],
    requestToPatientId := fun _ => 0 }

/-- Source function `submitHealthData(patientId, genomic, cellular, organ, biomarkers)`:
overwrites the patient's record, stamping it with `block.timestamp`. -/
def submitHealthData (s : ContractState) (patientId : Nat)
    (genomic cellular organ biomarkers : List Nat) (blockTimestamp : Nat) :
    ContractState :=
  let record : EncryptedHealthData :=
    { patientId := patientId, genomicData := genomic,
      cellularData := cellular, organData := organ,
      biomarkers := biomarkers, timestamp := blockTimestamp }
  { s with patientData := mapUpdate s.patientData patientId record }

/-- Source function `setModelParameters(genomicParams, cellularParams, organParams)`. -/
def setModelParameters (s : ContractState)
    (genomicParams cellularParams organParams : List Nat) : ContractState :=
  { s with genomicModelParams := genomicParams,
           cellularModelParams := cellularParams,
           organModelParams := organParams }

/-- Source function `updateGenomicModel(newParams)`. -/
def updateGenomicModel (s : ContractState) (newParams : List Nat) :
    ContractState :=
  { s with genomicModelParams := newParams }

/-- Source function `updateCellularModel(newParams)`. -/
def updateCellularModel (s : ContractState) (newParams : List Nat) :
    ContractState :=
  { s with cellularModelParams := newParams }

/-- Source function `updateOrganModel(newParams)`. -/
def updateOrganModel (s : ContractState) (newParams : List Nat) :
    ContractState :=
  { s with organModelParams := newParams }

/-- Source function `requestSimulation(patientId)`: requires stored patient data, mutates
nothing (it only emits an event). -/
def requestSimulation (s : ContractState) (patientId : Nat) :
    Except String ContractState :=
  if (s.patientData patientId).timestamp > 0 then Except.ok s
  else Except.error "Patient data not found"

/-- Source function `storeSimulationResult(patientId, diseaseRisk, drugResponses)`: stores the
encrypted result with `isComplete := true` and unconditionally resets the
patient's `DecryptedResult` to the empty, unrevealed record. -/
def storeSimulationResult (s : ContractState) (patientId : Nat)
    (diseaseRisk : Nat) (drugResponses : List Nat) : ContractState :=
  let newSim : SimulationResult :=
    { diseaseRiskScore := diseaseRisk, drugResponse := drugResponses,
      isComplete := true }
  let resetDec : DecryptedResult :=
    { diseaseRiskScore := 0, drugResponse := [], isRevealed := false }
  { s with
    simulationResults := mapUpdate s.simulationResults patientId newSim,
    decryptedResults := mapUpdate s.decryptedResults patientId resetDec }

/-- Source function `requestResultDecryption(patientId)`: requires a complete simulation and
a not-yet-revealed result, flattens the risk score followed by the drug
responses into one ciphertext array, sends it to the decryption service
(which picks `reqId`), and records `requestToPatientId[reqId] = patientId`.
Returns the new state together with the flattened ciphertext array. -/
def requestResultDecryption (s : ContractState) (patientId reqId : Nat) :
    Except String (ContractState × List Nat) :=
  let result := s.simulationResults patientId
  if result.isComplete then
    if (s.decryptedResults patientId).isRevealed then
      Except.error "Already revealed"
    else
      let ciphertexts := result.diseaseRiskScore :: result.drugResponse
      Except.ok
        ({ s with requestToPatientId :=
            mapUpdate s.requestToPatientId reqId patientId }, ciphertexts)
  else Except.error "Simulation not complete"

/-- Source function `decryptSimulationResult(requestId, cleartexts, proof)`: the decryption
callback. Resolves the patient from the request id (reverting on the mapping
default `0`), requires the result not yet revealed, checks the decryption
proof, decodes the cleartexts as a `uint32[]`, writes element `0` as the risk
score and elements `1..` as the drug-response vector, and marks the record
revealed. Indexing `results[0]` reverts when the decoded array is empty. -/
def decryptSimulationResult (s : ContractState) (requestId : Nat)
    (cleartexts : List Nat) (proofOk : Bool) : Except String ContractState :=
  let patientId := s.requestToPatientId requestId
  if patientId = 0 then Except.error "Invalid request"
  else if (s.decryptedResults patientId).isRevealed then
    Except.error "Already revealed"
  else if proofOk = false then Except.error "Invalid decryption proof"
  else
    match cleartexts with
    | [] => Except.error "Array index out of bounds"
    | r0 :: rest =>
      let revealed : DecryptedResult :=
        { diseaseRiskScore := r0, drugResponse := rest, isRevealed := true }
      Except.ok
        { s with decryptedResults :=
            mapUpdate s.decryptedResults patientId revealed }

/-- The genomic multiply-accumulate loop shared verbatim by
`predictDiseaseRisk` and `predictDrugResponse`: accumulator starts at
`FHE.asEuint32(0)`, iterates over the model-parameter indices and skips the
indices at or past the end of the data vector. -/
def genomicContribution (params data : List Nat) : Nat :=
  (List.range params.length).foldl
    (fun risk i =>
      if i < data.length then fheAdd risk (fheMul (params.getD i 0) (data.getD i 0))
      else risk) 0

/-- Source function `predictDiseaseRisk(patientId)`: requires stored patient data, returns
the encrypted genomic dot product. -/
def predictDiseaseRisk (s : ContractState) (patientId : Nat) :
    Except String Nat :=
  let data := s.patientData patientId
  if data.timestamp > 0 then
    Except.ok (genomicContribution s.genomicModelParams data.genomicData)
  else Except.error "Patient data not found"

/-- Source function `predictDrugResponse(patientId, drugIndex)`: the genomic contribution
plus one biomarker term, silently omitted when `drugIndex` is out of range. -/
def predictDrugResponse (s : ContractState) (patientId drugIndex : Nat) :
    Except String Nat :=
  let data := s.patientData patientId
  if data.timestamp > 0 then
    let response := genomicContribution s.genomicModelParams data.genomicData
    if drugIndex < data.biomarkers.length then
      Except.ok (fheAdd response (data.biomarkers.getD drugIndex 0))
    else Except.ok response
  else Except.error "Patient data not found"

/-- Source function `getEncryptedHealthData(patientId)` view: requires stored data. -/
def getEncryptedHealthData (s : ContractState) (patientId : Nat) :
    Except String (List Nat × List Nat × List Nat × List Nat) :=
  let data := s.patientData patientId
  if data.timestamp > 0 then
    Except.ok (data.genomicData, data.cellularData, data.organData, data.biomarkers)
  else Except.error "Patient data not found"

/-- Source function `getEncryptedSimulationResult(patientId)` view: requires completeness. -/
def getEncryptedSimulationResult (s : ContractState) (patientId : Nat) :
    Except String (Nat × List Nat) :=
  let r := s.simulationResults patientId
  if r.isComplete then Except.ok (r.diseaseRiskScore, r.drugResponse)
  else Except.error "Simulation not complete"

/-- Source function `getDecryptedSimulationResult(patientId)` view: performs no check and
returns the mapping entry (its default at an unwritten key). -/
def getDecryptedSimulationResult (s : ContractState) (patientId : Nat) :
    Except String (Nat × List Nat × Bool) :=
  let r := s.decryptedResults patientId
  Except.ok (r.diseaseRiskScore, r.drugResponse, r.isRevealed)

/-- Truncated modular dot product, written from the specification's words:
the dot product of the two vectors truncated to the shorter one, accumulated
from zero with wrap-around `uint32` arithmetic. Used to compare the loop in
the source against the spec (claim C5). -/
def truncatedDotProduct (params data : List Nat) : Nat :=
  (params.zip data).foldl (fun acc pd => fheAdd acc (fheMul pd.1 pd.2)) 0


/-! ## Frontend twin lifecycle (src/frontend/web/src/App.tsx) -/

/-- The JSON twin record `{data, timestamp, owner, scale, status}` stored
under the key `twin_<id>`. -/
structure TwinRecord where
  data : String
  timestamp : Nat
  owner : String
  scale : String
  status : String
deriving Repr, DecidableEq

/-- The portion of the record store the twin lifecycle touches: the per-twin
records, addressed by key, plus the `twin_keys` index array. -/
structure FrontendState where
  twinStore : String → Option TwinRecord
  twinKeys : List String

/-- The per-twin storage key template `"twin_" + id`. -/
def twinKey (id : String) : String := "twin_" ++ id

/-- Source function `submitTwin`: builds the twin record with `status: "pending"` and the
caller's scale, writes it under `twin_<id>`, then appends the id to the
`twin_keys` index. -/
def submitTwin (st : FrontendState) (twinId encryptedData owner scale : String)
    (timestamp : Nat) : FrontendState :=
  let twinData : TwinRecord :=
    { data := encryptedData, timestamp := timestamp, owner := owner,
      scale := scale, status := "pending" }
  { twinStore := fun k => if k = twinKey twinId then some twinData else st.twinStore k,
    twinKeys := st.twinKeys ++ [twinId] }

/-- Source function `activateTwin`: reads the stored record (failing when absent), patches
only the `status` field to `"active"` via object spread, and writes the
record back under the same key. -/
def activateTwin (st : FrontendState) (twinId : String) :
    Except String FrontendState :=
  match st.twinStore (twinKey twinId) with
  | none => Except.error "Twin not found"
  | some twinData =>
    let updatedTwin : TwinRecord := { twinData with status := "active" }
    Except.ok
      { st with twinStore :=
          fun k => if k = twinKey twinId then some updatedTwin else st.twinStore k }

/-! ## Concrete states used to evaluate the theorems -/

/-- Shared concrete model parameters for evaluation. -/
def demoParams : List Nat := [2, 3, 5]

/-- Deployed contract with model parameters set. -/
def demoState0 : ContractState := setModelParameters initState demoParams [] []

/-- Patient 1 has submitted genomic data `[7, 11]` and biomarkers `[4, 6]`. -/
def demoState1 : ContractState :=
  submitHealthData demoState0 1 [7, 11] [] [] [4, 6] 100

/-- Patient 1 additionally has a complete encrypted simulation result. -/
def demoStateSim : ContractState := storeSimulationResult demoState1 1 9 [7, 8]

/-- State after `requestResultDecryption(1)` was assigned request id `42`. -/
def demoRequested : ContractState :=
  match requestResultDecryption demoStateSim 1 42 with
  | Except.ok (t, _) => t
  | Except.error _ => initState

/-- State after the decryption callback delivered cleartexts `[3, 4, 5]` for
request `42` with a valid proof. -/
def demoRevealed : ContractState :=
  match decryptSimulationResult demoRequested 42 [3, 4, 5] true with
  | Except.ok t => t
  | Except.error _ => initState

/-- Reachable trace for claim C4, step 1: patient 1 gets a complete
simulation result. -/
def c4s1 : ContractState := storeSimulationResult initState 1 9 [7]

/-- C4 trace, step 2: decryption of patient 1's result requested, id `42`. -/
def c4s2 : ContractState :=
  match requestResultDecryption c4s1 1 42 with
  | Except.ok (t, _) => t
  | Except.error _ => initState

/-- C4 trace, step 3: the callback reveals cleartexts `[3, 4]`. -/
def c4s3 : ContractState :=
  match decryptSimulationResult c4s2 42 [3, 4] true with
  | Except.ok t => t
  | Except.error _ => initState

/-- C4 trace, step 4: `storeSimulationResult` is called again for patient 1
after the reveal. -/
def c4s4 : ContractState := storeSimulationResult c4s3 1 9 [7]

/-- C4 trace, step 5: decryption is requested again, id `43`. -/
def c4s5 : ContractState :=
  match requestResultDecryption c4s4 1 43 with
  | Except.ok (t, _) => t
  | Except.error _ => initState

/-- C4 trace, step 6: a second callback repopulates the decrypted result
with different values `[11, 12]`. -/
def c4s6 : ContractState :=
  match decryptSimulationResult c4s5 43 [11, 12] true with
  | Except.ok t => t
  | Except.error _ => initState

/-- Contract state in which patient `0` has a complete simulation result. -/
def p0State : ContractState := storeSimulationResult initState 0 5 [6]

/-- State after decryption of patient `0`'s result was requested, id `42`. -/
def p0Requested : ContractState :=
  match requestResultDecryption p0State 0 42 with
  | Except.ok (t, _) => t
  | Except.error _ => initState

/-! ## General lemmas about the embedding -/

/-- Folding a function that ignores the elements leaves the accumulator. -/
theorem foldl_skip {α β : Type} (l : List β) (a : α) :
    l.foldl (fun r _ => r) a = a := by
  induction l with
  | nil => rfl
  | cons x xs ih => simp [List.foldl_cons, ih]

/-- The guarded index loop of the source equals the fold over the zipped
vectors, for every accumulator. -/
theorem range_guarded_foldl_eq_zip (g : Nat → Nat → Nat → Nat) :
    ∀ (params data : List Nat) (a : Nat),
      (List.range params.length).foldl
        (fun r i => if i < data.length then g r (params.getD i 0) (data.getD i 0) else r) a
      = (params.zip data).foldl (fun r pd => g r pd.1 pd.2) a := by
  intro params
  induction params with
  | nil => intro data a; rfl
  | cons p ps ih =>
    intro data a
    cases data with
    | nil =>
      simp only [List.zip_nil_right, List.foldl_nil]
      have hfun : (fun (r : Nat) (i : Nat) =>
          if i < ([] : List Nat).length then
            g r ((p :: ps).getD i 0) (([] : List Nat).getD i 0) else r)
          = fun (r : Nat) (_ : Nat) => r := by
        funext r i
        exact if_neg (by simp)
      rw [hfun]
      exact foldl_skip _ a
    | cons d ds =>
      simp only [List.length_cons]
      rw [List.range_succ_eq_map, List.foldl_cons, List.foldl_map]
      have hz : (p :: ps).zip (d :: ds) = (p, d) :: ps.zip ds := rfl
      rw [hz, List.foldl_cons]
      have h0 : (if (0 : Nat) < ds.length + 1 then
          g a ((p :: ps).getD 0 0) ((d :: ds).getD 0 0) else a) = g a p d := by
        simp
      rw [h0]
      have hfun : (fun (r : Nat) (i : Nat) =>
          if Nat.succ i < ds.length + 1 then
            g r ((p :: ps).getD (Nat.succ i) 0) ((d :: ds).getD (Nat.succ i) 0)
          else r)
          = fun (r : Nat) (i : Nat) =>
            if i < ds.length then g r (ps.getD i 0) (ds.getD i 0) else r := by
        funext r i
        simp [Nat.succ_lt_succ_iff]
      rw [hfun]
      exact ih ds (g a p d)

/-- The source's genomic loop computes the truncated dot product. -/
theorem genomicContribution_eq_truncatedDotProduct (params data : List Nat) :
    genomicContribution params data = truncatedDotProduct params data := by
  unfold genomicContribution truncatedDotProduct
  exact range_guarded_foldl_eq_zip (fun r x y => fheAdd r (fheMul x y)) params data 0


/-- Characterisation of a successful `requestResultDecryption` call. -/
theorem requestResultDecryption_ok_inv (s : ContractState) (p rid : Nat)
    (s1 : ContractState) (cts : List Nat)
    (h : requestResultDecryption s p rid = Except.ok (s1, cts)) :
    (s.simulationResults p).isComplete = true ∧
    (s.decryptedResults p).isRevealed = false ∧
    cts = (s.simulationResults p).diseaseRiskScore ::
          (s.simulationResults p).drugResponse ∧
    s1 = { s with requestToPatientId := mapUpdate s.requestToPatientId rid p } := by
  unfold requestResultDecryption at h
  by_cases hc : (s.simulationResults p).isComplete
  · rw [if_pos hc] at h
    by_cases hr : (s.decryptedResults p).isRevealed
    · rw [if_pos hr] at h
      exact absurd h (by simp)
    · rw [if_neg hr] at h
      simp only [Except.ok.injEq, Prod.mk.injEq] at h
      exact ⟨hc, by simp [hr], h.2.symm, h.1.symm⟩
  · rw [if_neg hc] at h
    exact absurd h (by simp)

/-- Characterisation of a successful `decryptSimulationResult` call. -/
theorem decryptSimulationResult_ok_inv (s : ContractState) (rid : Nat)
    (ct : List Nat) (pf : Bool) (s2 : ContractState)
    (h : decryptSimulationResult s rid ct pf = Except.ok s2) :
    s.requestToPatientId rid ≠ 0 ∧
    (s.decryptedResults (s.requestToPatientId rid)).isRevealed = false ∧
    pf = true ∧
    ∃ r0 rest, ct = r0 :: rest ∧
      s2 = { s with decryptedResults :=
              mapUpdate s.decryptedResults (s.requestToPatientId rid) ⟨r0, rest, true⟩ } := by
  unfold decryptSimulationResult at h
  by_cases h0 : s.requestToPatientId rid = 0
  · rw [if_pos h0] at h
    exact absurd h (by simp)
  · rw [if_neg h0] at h
    by_cases hr : (s.decryptedResults (s.requestToPatientId rid)).isRevealed
    · rw [if_pos hr] at h
      exact absurd h (by simp)
    · rw [if_neg hr] at h
      by_cases hp : pf = false
      · rw [if_pos hp] at h
        exact absurd h (by simp)
      · rw [if_neg hp] at h
        cases ct with
        | nil => exact absurd h (by simp)
        | cons r0 rest =>
          simp only [Except.ok.injEq] at h
          refine ⟨h0, by simp [hr], by simpa using hp, r0, rest, rfl, h.symm⟩

/-! ## Claim theorems -/

/-- C5: for every patient with submitted data (`timestamp > 0`),
`predictDiseaseRisk` returns (without error) the encrypted dot product of the
genomic model-parameter vector with the patient's genomic data vector,
accumulated from encrypted zero over exactly the first
`min(|genomicModelParams|, |genomicData|)` index positions — the zipped
vector the fold runs over has exactly that length — so unequal lengths
truncate to the shorter vector and the loop never reads past the data
vector's end. -/
theorem predictDiseaseRisk_truncated_dot (s : ContractState) (patientId : Nat)
    (h : (s.patientData patientId).timestamp > 0) :
    predictDiseaseRisk s patientId =
      Except.ok (truncatedDotProduct s.genomicModelParams
        (s.patientData patientId).genomicData) ∧
    (s.genomicModelParams.zip (s.patientData patientId).genomicData).length =
      min s.genomicModelParams.length
        (s.patientData patientId).genomicData.length := by
  constructor
  · unfold predictDiseaseRisk
    rw [if_pos h, genomicContribution_eq_truncatedDotProduct]
  · exact List.length_zip _ _

/-- Witness for C5 at a concrete state: parameters `[2, 3, 5]`, data
`[7, 11]`, so the parameter vector is longer and truncation applies. -/
theorem predictDiseaseRisk_truncated_dot_witness :
    predictDiseaseRisk demoState1 1 =
      Except.ok (truncatedDotProduct demoState1.genomicModelParams
        (demoState1.patientData 1).genomicData) ∧
    (demoState1.genomicModelParams.zip
      (demoState1.patientData 1).genomicData).length =
      min demoState1.genomicModelParams.length
        (demoState1.patientData 1).genomicData.length :=
  predictDiseaseRisk_truncated_dot demoState1 1 (by decide)

/-- C6: for every patient with submitted data and every drug index,
`predictDrugResponse` equals `predictDiseaseRisk` plus the single encrypted
biomarker term at that index when the index is in range, and equals
`predictDiseaseRisk` exactly (term silently omitted, no error) when the
index is out of range. -/
theorem predictDrugResponse_risk_plus_biomarker (s : ContractState)
    (patientId drugIndex : Nat)
    (h : (s.patientData patientId).timestamp > 0) :
    (drugIndex < (s.patientData patientId).biomarkers.length →
      predictDrugResponse s patientId drugIndex =
        (predictDiseaseRisk s patientId).map
          (fun risk => fheAdd risk
            ((s.patientData patientId).biomarkers.getD drugIndex 0))) ∧
    (¬ drugIndex < (s.patientData patientId).biomarkers.length →
      predictDrugResponse s patientId drugIndex =
        predictDiseaseRisk s patientId) := by
  unfold predictDrugResponse predictDiseaseRisk
  constructor
  · intro hlt
    rw [if_pos h, if_pos h, if_pos hlt]
    rfl
  · intro hge
    rw [if_pos h, if_pos h, if_neg hge]

/-- Witness for C6 at a concrete state: biomarkers `[4, 6]`, drug index `0`
in range and drug index `5` out of range. -/
theorem predictDrugResponse_risk_plus_biomarker_witness :
    predictDrugResponse demoState1 1 0 =
      (predictDiseaseRisk demoState1 1).map
        (fun risk => fheAdd risk
          ((demoState1.patientData 1).biomarkers.getD 0 0)) ∧
    predictDrugResponse demoState1 1 5 = predictDiseaseRisk demoState1 1 :=
  ⟨(predictDrugResponse_risk_plus_biomarker demoState1 1 0 (by decide)).1
      (by decide),
   (predictDrugResponse_risk_plus_biomarker demoState1 1 5 (by decide)).2
      (by decide)⟩

/-- C3: `requestResultDecryption(patientId)` reverts with
"Simulation not complete" when the stored simulation is incomplete and with
"Already revealed" when the decrypted result is already revealed — a revert
produces no successor state, so `decryptedResults` and all other storage are
left unchanged — and when both preconditions hold it succeeds, issuing one
decryption request over `1 + |drugResponse|` ciphertexts and recording the
returned request id as mapping to `patientId`, all other storage (and the
map at every other request id) unchanged. -/
theorem requestResultDecryption_guards (s : ContractState)
    (patientId reqId : Nat) :
    ((s.simulationResults patientId).isComplete = false →
      requestResultDecryption s patientId reqId =
        Except.error "Simulation not complete") ∧
    ((s.simulationResults patientId).isComplete = true →
      (s.decryptedResults patientId).isRevealed = true →
      requestResultDecryption s patientId reqId =
        Except.error "Already revealed") ∧
    ((s.simulationResults patientId).isComplete = true →
      (s.decryptedResults patientId).isRevealed = false →
      ∃ s' cts,
        requestResultDecryption s patientId reqId = Except.ok (s', cts) ∧
        cts.length = 1 + (s.simulationResults patientId).drugResponse.length ∧
        s'.requestToPatientId reqId = patientId ∧
        (∀ r, r ≠ reqId → s'.requestToPatientId r = s.requestToPatientId r) ∧
        s'.patientData = s.patientData ∧
        s'.simulationResults = s.simulationResults ∧
        s'.decryptedResults = s.decryptedResults ∧
        s'.genomicModelParams = s.genomicModelParams ∧
        s'.cellularModelParams = s.cellularModelParams ∧
        s'.organModelParams = s.organModelParams) := by
  refine ⟨?_, ?_, ?_⟩
  · intro hc
    unfold requestResultDecryption
    rw [if_neg (by simp [hc])]
  · intro hc hr
    unfold requestResultDecryption
    rw [if_pos hc, if_pos hr]
  · intro hc hr
    unfold requestResultDecryption
    rw [if_pos hc, if_neg (by simp [hr])]
    refine ⟨_, _, rfl, ?_, ?_, ?_, rfl, rfl, rfl, rfl, rfl, rfl⟩
    · simp [Nat.add_comm]
    · simp [mapUpdate]
    · intro r hru
      simp [mapUpdate, hru]

/-- Witness for C3: in `demoStateSim` patient 2 has no complete simulation,
so the request reverts; in `demoRevealed` patient 1 is already revealed, so
the request reverts; in `demoStateSim` patient 1 meets both preconditions,
so the request succeeds. -/
theorem requestResultDecryption_guards_witness :
    requestResultDecryption demoStateSim 2 7 =
      Except.error "Simulation not complete" ∧
    requestResultDecryption demoRevealed 1 43 =
      Except.error "Already revealed" ∧
    (∃ s' cts,
        requestResultDecryption demoStateSim 1 42 = Except.ok (s', cts) ∧
        cts.length =
          1 + (demoStateSim.simulationResults 1).drugResponse.length ∧
        s'.requestToPatientId 42 = 1 ∧
        (∀ r, r ≠ 42 → s'.requestToPatientId r =
          demoStateSim.requestToPatientId r) ∧
        s'.patientData = demoStateSim.patientData ∧
        s'.simulationResults = demoStateSim.simulationResults ∧
        s'.decryptedResults = demoStateSim.decryptedResults ∧
        s'.genomicModelParams = demoStateSim.genomicModelParams ∧
        s'.cellularModelParams = demoStateSim.cellularModelParams ∧
        s'.organModelParams = demoStateSim.organModelParams) :=
  ⟨(requestResultDecryption_guards demoStateSim 2 7).1 (by decide),
   (requestResultDecryption_guards demoRevealed 1 43).2.1 (by decide)
     (by decide),
   (requestResultDecryption_guards demoStateSim 1 42).2.2 (by decide)
     (by decide)⟩

/-- C2: the decryption callback reverts with "Invalid request" for every
request id that is not mapped to a patient (the mapping default `0`), with
"Already revealed" when the mapped patient's decrypted result is already
revealed, and with a proof-check revert when proof verification fails; a
revert aborts the whole call atomically, producing no successor state, so
no storage — in particular the stored decrypted result — is mutated. -/
theorem decryptSimulationResult_guards (s : ContractState) (requestId : Nat)
    (cleartexts : List Nat) (proofOk : Bool) :
    (s.requestToPatientId requestId = 0 →
      decryptSimulationResult s requestId cleartexts proofOk =
        Except.error "Invalid request") ∧
    (s.requestToPatientId requestId ≠ 0 →
      (s.decryptedResults (s.requestToPatientId requestId)).isRevealed = true →
      decryptSimulationResult s requestId cleartexts proofOk =
        Except.error "Already revealed") ∧
    (s.requestToPatientId requestId ≠ 0 →
      (s.decryptedResults (s.requestToPatientId requestId)).isRevealed = false →
      proofOk = false →
      decryptSimulationResult s requestId cleartexts proofOk =
        Except.error "Invalid decryption proof") := by
  refine ⟨?_, ?_, ?_⟩
  · intro h0
    unfold decryptSimulationResult
    rw [if_pos h0]
  · intro h0 hr
    unfold decryptSimulationResult
    rw [if_neg h0, if_pos hr]
  · intro h0 hr hp
    unfold decryptSimulationResult
    rw [if_neg h0, if_neg (by simp [hr]), if_pos hp]

/-- Witness for C2: in `initState` request id 99 is unknown; in
`demoRevealed` request 42 maps to the already-revealed patient 1; in
`demoRequested` the proof check fails when the proof is invalid. -/
theorem decryptSimulationResult_guards_witness :
    decryptSimulationResult initState 99 [1] true =
      Except.error "Invalid request" ∧
    decryptSimulationResult demoRevealed 42 [1] true =
      Except.error "Already revealed" ∧
    decryptSimulationResult demoRequested 42 [1] false =
      Except.error "Invalid decryption proof" :=
  ⟨(decryptSimulationResult_guards initState 99 [1] true).1 (by decide),
   (decryptSimulationResult_guards demoRevealed 42 [1] true).2.1 (by decide)
     (by decide),
   (decryptSimulationResult_guards demoRequested 42 [1] false).2.2 (by decide)
     (by decide) (by decide)⟩

/-- C1: when `requestResultDecryption` recorded a request id for patient `p`
and a subsequent `decryptSimulationResult` call for that id succeeds on a
cleartext that decodes to a non-empty array, the handler writes element `0`
of the array as `p`'s decrypted risk score, elements `1..` in order as `p`'s
decrypted drug-response vector (one shorter than the array), sets
`isRevealed` to `true`, and the array positions line up with the flattening
order of the request: ciphertext `0` was the risk score and ciphertexts
`1..` the stored drug responses in order. -/
theorem decrypt_callback_writes_decoded (s s1 s2 : ContractState)
    (p rid r0 : Nat) (rest cts : List Nat) (pf : Bool)
    (hreq : requestResultDecryption s p rid = Except.ok (s1, cts))
    (hcb : decryptSimulationResult s1 rid (r0 :: rest) pf = Except.ok s2) :
    (s2.decryptedResults p).diseaseRiskScore = r0 ∧
    (s2.decryptedResults p).drugResponse = rest ∧
    (s2.decryptedResults p).isRevealed = true ∧
    (s2.decryptedResults p).drugResponse.length = (r0 :: rest).length - 1 ∧
    cts = (s.simulationResults p).diseaseRiskScore ::
          (s.simulationResults p).drugResponse := by
  obtain ⟨hc, hr, hcts, hs1⟩ :=
    requestResultDecryption_ok_inv s p rid s1 cts hreq
  obtain ⟨h0, hrev, hpf, q0, qrest, hqeq, hs2⟩ :=
    decryptSimulationResult_ok_inv s1 rid (r0 :: rest) pf s2 hcb
  have hpid : s1.requestToPatientId rid = p := by
    rw [hs1]
    simp [mapUpdate]
  obtain ⟨hq0, hqrest⟩ : q0 = r0 ∧ qrest = rest := by
    constructor
    · exact (List.cons.injEq q0 qrest r0 rest ▸ hqeq.symm).1
    · exact (List.cons.injEq q0 qrest r0 rest ▸ hqeq.symm).2
  subst hq0
  subst hqrest
  rw [hs2, hpid]
  refine ⟨by simp [mapUpdate], by simp [mapUpdate], by simp [mapUpdate],
    by simp [mapUpdate], hcts⟩

/-- Witness for C1: in the demo trace, request 42 flattens `[9, 7, 8]` and
the callback cleartexts `[3, 4, 5]` are written as risk `3`, drug responses
`[4, 5]`, revealed. -/
theorem decrypt_callback_writes_decoded_witness :
    (demoRevealed.decryptedResults 1).diseaseRiskScore = 3 ∧
    (demoRevealed.decryptedResults 1).drugResponse = [4, 5] ∧
    (demoRevealed.decryptedResults 1).isRevealed = true ∧
    (demoRevealed.decryptedResults 1).drugResponse.length =
      ([3, 4, 5] : List Nat).length - 1 ∧
    [9, 7, 8] = (demoStateSim.simulationResults 1).diseaseRiskScore ::
                (demoStateSim.simulationResults 1).drugResponse :=
  decrypt_callback_writes_decoded demoStateSim demoRequested demoRevealed
    1 42 3 [4, 5] [9, 7, 8] true (by rfl) (by rfl)

/-- C7: no contract operation removes a `requestToPatientId` entry. A
successful `decryptSimulationResult` leaves the whole map unchanged, so the
stale request id still resolves to its patient, and a replayed callback with
that id is blocked only by the already-revealed guard (it reverts with
"Already revealed", not with the unknown-request revert). No other
operation writes the map at all, except `requestResultDecryption`, which
writes only the entry of the newly issued request id. -/
theorem requestToPatientId_never_cleared (s : ContractState) :
    (∀ rid ct pf s', decryptSimulationResult s rid ct pf = Except.ok s' →
      s'.requestToPatientId = s.requestToPatientId ∧
      (∀ ct' pf', decryptSimulationResult s' rid ct' pf' =
        Except.error "Already revealed")) ∧
    (∀ p r d, (storeSimulationResult s p r d).requestToPatientId =
      s.requestToPatientId) ∧
    (∀ p g c o b t, (submitHealthData s p g c o b t).requestToPatientId =
      s.requestToPatientId) ∧
    (∀ g c o, (setModelParameters s g c o).requestToPatientId =
      s.requestToPatientId) ∧
    (∀ np, (updateGenomicModel s np).requestToPatientId =
        s.requestToPatientId ∧
      (updateCellularModel s np).requestToPatientId = s.requestToPatientId ∧
      (updateOrganModel s np).requestToPatientId = s.requestToPatientId) ∧
    (∀ p s', requestSimulation s p = Except.ok s' →
      s'.requestToPatientId = s.requestToPatientId) ∧
    (∀ p rid s' cts, requestResultDecryption s p rid = Except.ok (s', cts) →
      ∀ r, r ≠ rid → s'.requestToPatientId r = s.requestToPatientId r) := by
  refine ⟨?_, ?_, ?_, ?_, ?_, ?_, ?_⟩
  · intro rid ct pf s' hok
    obtain ⟨h0, hrev, hpf, q0, qrest, hqeq, hs'⟩ :=
      decryptSimulationResult_ok_inv s rid ct pf s' hok
    have hmap : s'.requestToPatientId = s.requestToPatientId := by
      rw [hs']
    refine ⟨hmap, ?_⟩
    intro ct' pf'
    have hpid : s'.requestToPatientId rid = s.requestToPatientId rid := by
      rw [hmap]
    have hrevealed :
        (s'.decryptedResults (s'.requestToPatientId rid)).isRevealed = true := by
      rw [hpid, hs']
      simp [mapUpdate]
    exact (decryptSimulationResult_guards s' rid ct' pf').2.1
      (by rw [hpid]; exact h0) hrevealed
  · intro p r d
    rfl
  · intro p g c o b t
    rfl
  · intro g c o
    rfl
  · intro np
    exact ⟨rfl, rfl, rfl⟩
  · intro p s' hok
    unfold requestSimulation at hok
    by_cases ht : (s.patientData p).timestamp > 0
    · rw [if_pos ht] at hok
      simp only [Except.ok.injEq] at hok
      rw [← hok]
    · rw [if_neg ht] at hok
      exact absurd hok (by simp)
  · intro p rid s' cts hok r hru
    obtain ⟨hc, hr, hcts, hs'⟩ :=
      requestResultDecryption_ok_inv s p rid s' cts hok
    rw [hs']
    simp [mapUpdate, hru]

/-- Witness for C7: in the demo trace the successful callback for request 42
leaves the map unchanged, a replayed callback reverts with
"Already revealed", and `storeSimulationResult` does not touch the map. -/
theorem requestToPatientId_never_cleared_witness :
    (demoRevealed.requestToPatientId = demoRequested.requestToPatientId ∧
      (∀ ct' pf', decryptSimulationResult demoRevealed 42 ct' pf' =
        Except.error "Already revealed")) ∧
    (storeSimulationResult demoRequested 2 9 [7]).requestToPatientId =
      demoRequested.requestToPatientId :=
  ⟨(requestToPatientId_never_cleared demoRequested).1 42 [3, 4, 5] true
      demoRevealed (by rfl),
   (requestToPatientId_never_cleared demoRequested).2.1 2 9 [7]⟩

/-- C9: a successful `requestResultDecryption` for patient id `0` records a
request-id entry equal to the mapping default `0`; every callback for a
request id that resolves to `0` — in particular every callback for that
recorded request id — reverts with "Invalid request", because the
unknown-request check is exactly `patientId != 0`; and no successful
callback ever changes patient `0`'s decrypted result, so patient `0`'s
results can never be revealed through the callback. -/
theorem patient_zero_never_revealed (s s1 : ContractState) (rid : Nat)
    (cts : List Nat)
    (hreq : requestResultDecryption s 0 rid = Except.ok (s1, cts)) :
    s1.requestToPatientId rid = 0 ∧
    (∀ ct pf, decryptSimulationResult s1 rid ct pf =
      Except.error "Invalid request") ∧
    (∀ t ct pf, t.requestToPatientId rid = 0 →
      decryptSimulationResult t rid ct pf = Except.error "Invalid request") ∧
    (∀ t r ct pf t', decryptSimulationResult t r ct pf = Except.ok t' →
      t'.decryptedResults 0 = t.decryptedResults 0) := by
  obtain ⟨hc, hr, hcts, hs1⟩ := requestResultDecryption_ok_inv s 0 rid s1 cts hreq
  have hmap : s1.requestToPatientId rid = 0 := by
    rw [hs1]
    simp [mapUpdate]
  refine ⟨hmap, ?_, ?_, ?_⟩
  · intro ct pf
    exact (decryptSimulationResult_guards s1 rid ct pf).1 hmap
  · intro t ct pf h0
    exact (decryptSimulationResult_guards t rid ct pf).1 h0
  · intro t r ct pf t' hok
    obtain ⟨h0, hrev, hpf, q0, qrest, hqeq, ht'⟩ :=
      decryptSimulationResult_ok_inv t r ct pf t' hok
    rw [ht']
    simp [mapUpdate]
    intro hcontra
    exact absurd hcontra.symm h0

/-- Witness for C9: with patient `0`'s simulation complete, request id `42`
is recorded as mapping to `0` and the callback reverts on it. -/
theorem patient_zero_never_revealed_witness :
    p0Requested.requestToPatientId 42 = 0 ∧
    (∀ ct pf, decryptSimulationResult p0Requested 42 ct pf =
      Except.error "Invalid request") ∧
    (∀ t ct pf, t.requestToPatientId 42 = 0 →
      decryptSimulationResult t 42 ct pf = Except.error "Invalid request") ∧
    (∀ t r ct pf t', decryptSimulationResult t r ct pf = Except.ok t' →
      t'.decryptedResults 0 = t.decryptedResults 0) :=
  patient_zero_never_revealed p0State p0Requested 42 [5, 6] (by rfl)

/-- C10: `getDecryptedSimulationResult` never reverts — for every state and
every patient id it returns the stored triple — unlike
`getEncryptedHealthData` and `getEncryptedSimulationResult`, which revert
when their existence checks fail; and for a patient whose decrypted-result
entry is still the mapping default it returns risk score `0`, empty
drug-response vector and `isRevealed = false`, exactly the triple returned
for a patient whose result was stored by `storeSimulationResult` but not yet
revealed. -/
theorem getDecryptedSimulationResult_total (s : ContractState)
    (patientId : Nat) :
    getDecryptedSimulationResult s patientId =
      Except.ok ((s.decryptedResults patientId).diseaseRiskScore,
        (s.decryptedResults patientId).drugResponse,
        (s.decryptedResults patientId).isRevealed) ∧
    (s.decryptedResults patientId = emptyDecryptedResult →
      getDecryptedSimulationResult s patientId = Except.ok (0, [], false)) ∧
    (∀ r d, getDecryptedSimulationResult
      (storeSimulationResult s patientId r d) patientId =
        Except.ok (0, [], false)) ∧
    ((s.patientData patientId).timestamp = 0 →
      getEncryptedHealthData s patientId =
        Except.error "Patient data not found") ∧
    ((s.simulationResults patientId).isComplete = false →
      getEncryptedSimulationResult s patientId =
        Except.error "Simulation not complete") := by
  refine ⟨rfl, ?_, ?_, ?_, ?_⟩
  · intro hd
    unfold getDecryptedSimulationResult
    rw [hd]
    rfl
  · intro r d
    unfold getDecryptedSimulationResult storeSimulationResult
    simp [mapUpdate]
  · intro ht
    unfold getEncryptedHealthData
    rw [if_neg (by simp [ht])]
  · intro hc
    unfold getEncryptedSimulationResult
    rw [if_neg (by simp [hc])]

/-- Witness for C10 at `initState` and patient `1`: the getter succeeds with
the default triple while both checked getters revert; the triple after
`storeSimulationResult` is the same. -/
theorem getDecryptedSimulationResult_total_witness :
    getDecryptedSimulationResult initState 1 =
      Except.ok ((initState.decryptedResults 1).diseaseRiskScore,
        (initState.decryptedResults 1).drugResponse,
        (initState.decryptedResults 1).isRevealed) ∧
    getDecryptedSimulationResult initState 1 = Except.ok (0, [], false) ∧
    getDecryptedSimulationResult (storeSimulationResult initState 1 9 [7]) 1 =
      Except.ok (0, [], false) ∧
    getEncryptedHealthData initState 1 =
      Except.error "Patient data not found" ∧
    getEncryptedSimulationResult initState 1 =
      Except.error "Simulation not complete" :=
  ⟨(getDecryptedSimulationResult_total initState 1).1,
   (getDecryptedSimulationResult_total initState 1).2.1 (by rfl),
   (getDecryptedSimulationResult_total initState 1).2.2.1 9 [7],
   (getDecryptedSimulationResult_total initState 1).2.2.2.1 (by rfl),
   (getDecryptedSimulationResult_total initState 1).2.2.2.2 (by rfl)⟩

/-- Counterexample to C4 as stated: in the reachable trace
`c4s1 … c4s6` patient 1's decrypted result is revealed at `c4s3`, yet the
subsequent `storeSimulationResult` call (step 4) overwrites the
decrypted-result record — resetting it to the empty unrevealed record — and
a further request/callback round repopulates it with different values. -/
theorem decrypted_result_overwritten_after_reveal :
    requestResultDecryption c4s1 1 42 = Except.ok (c4s2, [9, 7]) ∧
    decryptSimulationResult c4s2 42 [3, 4] true = Except.ok c4s3 ∧
    c4s3.decryptedResults 1 =
      { diseaseRiskScore := 3, drugResponse := [4], isRevealed := true } ∧
    c4s4.decryptedResults 1 ≠ c4s3.decryptedResults 1 ∧
    c4s4.decryptedResults 1 =
      { diseaseRiskScore := 0, drugResponse := [], isRevealed := false } ∧
    requestResultDecryption c4s4 1 43 = Except.ok (c4s5, [9, 7]) ∧
    decryptSimulationResult c4s5 43 [11, 12] true = Except.ok c4s6 ∧
    c4s6.decryptedResults 1 =
      { diseaseRiskScore := 11, drugResponse := [12], isRevealed := true } :=
  ⟨by rfl, by rfl, by rfl, by decide, by rfl, by rfl, by rfl, by rfl⟩

/-- C4 as amended: once a patient's decrypted result is revealed, the
decryption callback itself never populates or overwrites it again — a
callback whose request id resolves to a revealed patient cannot succeed,
and a successful callback leaves every revealed patient's record
unchanged — but `storeSimulationResult` unconditionally resets the
patient's decrypted-result record to empty/unrevealed, after which a new
request/callback round can populate it again. -/
theorem decrypted_result_once_amended (s : ContractState) (rid : Nat)
    (ct : List Nat) (pf : Bool) :
    ((s.decryptedResults (s.requestToPatientId rid)).isRevealed = true →
      ∀ s', decryptSimulationResult s rid ct pf ≠ Except.ok s') ∧
    (∀ s' p, decryptSimulationResult s rid ct pf = Except.ok s' →
      (s.decryptedResults p).isRevealed = true →
      s'.decryptedResults p = s.decryptedResults p) ∧
    (∀ p r d, (storeSimulationResult s p r d).decryptedResults p =
      emptyDecryptedResult) := by
  refine ⟨?_, ?_, ?_⟩
  · intro hrev s' hok
    obtain ⟨h0, hunrev, _, _, _, _, _⟩ :=
      decryptSimulationResult_ok_inv s rid ct pf s' hok
    rw [hrev] at hunrev
    exact absurd hunrev (by simp)
  · intro s' p hok hrev
    obtain ⟨h0, hunrev, hpf, q0, qrest, hqeq, hs'⟩ :=
      decryptSimulationResult_ok_inv s rid ct pf s' hok
    have hne : p ≠ s.requestToPatientId rid := by
      intro hcontra
      rw [hcontra, hunrev] at hrev
      exact absurd hrev (by simp)
    rw [hs']
    simp [mapUpdate, hne]
  · intro p r d
    unfold storeSimulationResult
    simp [mapUpdate]
    rfl

/-- Witness for the amended C4 at the concrete trace: at `c4s3` request 42
resolves to the revealed patient 1, so a replayed callback cannot succeed,
and `storeSimulationResult` resets patient 1's record. -/
theorem decrypted_result_once_amended_witness :
    (∀ s', decryptSimulationResult c4s3 42 [3, 4] true ≠ Except.ok s') ∧
    (c4s4.decryptedResults 1 = emptyDecryptedResult) :=
  ⟨(decrypted_result_once_amended c4s3 42 [3, 4] true).1 (by decide),
   (decrypted_result_once_amended c4s3 42 [3, 4] true).2.2 1 9 [7]⟩

/-- C8: submitting a twin with scale `"gene"` stores a record with status
`"pending"`, and a subsequent uncontended `activateTwin` on that twin id
succeeds and writes back, under the same `twin_<id>` key, a record whose
status is `"active"` and whose data, timestamp, owner and scale fields are
unchanged from the stored record. -/
theorem activateTwin_after_submitTwin (st : FrontendState)
    (twinId encryptedData owner : String) (ts : Nat) :
    (submitTwin st twinId encryptedData owner "gene" ts).twinStore
        (twinKey twinId) =
      some { data := encryptedData, timestamp := ts, owner := owner,
             scale := "gene", status := "pending" } ∧
    ∃ st2,
      activateTwin (submitTwin st twinId encryptedData owner "gene" ts)
        twinId = Except.ok st2 ∧
      st2.twinStore (twinKey twinId) =
        some { data := encryptedData, timestamp := ts, owner := owner,
               scale := "gene", status := "active" } := by
  have hstore : (submitTwin st twinId encryptedData owner "gene" ts).twinStore
      (twinKey twinId) =
      some { data := encryptedData, timestamp := ts, owner := owner,
             scale := "gene", status := "pending" } := by
    unfold submitTwin
    simp
  refine ⟨hstore, ?_⟩
  unfold activateTwin
  rw [hstore]
  refine ⟨_, rfl, ?_⟩
  simp
